import Mathlib

/-!
Verification of the matching/scoring/collecting core of the Music-Flow
Spotify ELT scripts (`dags/scripts/spotify_elt.py`, `dags/spotify_etl.py`).

The Python functions are shallowly embedded as executable Lean definitions:
strings are `String` / `List Char`, integers are `Int` / `Nat`, Python
exceptions (ZeroDivisionError, TypeError on a missing argument, IndexError)
are `Except PyError`, and the module-level mutable dictionaries and lists
become explicit state passing over `EtlState`.  Python float division in the
percent-in-description comparison is modelled exactly: the scorers use the
integer comparison `60 * total ≤ 100 * tracks_in_desc`, proved equivalent to
the rational formula `(tracks_in_desc / total) * 100 ≥ 60` in
`percentCmp_iff`.
-/

/-- Python exceptions that the embedded code can raise. -/
inductive PyError where
  | zeroDivision
  | missingArgument
  | indexError
  deriving Repr, DecidableEq

/-! ## String helpers (Python `in`, `.lower()`, `re.sub` with a literal pattern) -/

/-- Python's substring test `sub in s` on character lists. -/
def substrB (sub : List Char) : List Char → Bool
  | [] => sub.isEmpty
  | c :: rest => sub.isPrefixOf (c :: rest) || substrB sub rest

/-- Python's `sub in s` on strings. -/
def strIn (sub s : String) : Bool :=
  substrB sub.data s.data

/-- Python's `str.lower()` (ASCII-faithful). -/
def lowerStr (s : String) : String :=
  String.mk (s.data.map Char.toLower)

/-- One fuel-indexed pass of `re.sub(pat, rep, s)` for a literal, nonempty
pattern: replaces every non-overlapping occurrence, scanning left to right.
Fuel `0` returns the input unchanged; the callers always supply enough fuel. -/
def replaceAllF (pat rep : List Char) : Nat → List Char → List Char
  | 0, l => l
  | _ + 1, [] => []
  | f + 1, c :: rest =>
    if pat.isPrefixOf (c :: rest) && !pat.isEmpty then
      rep ++ replaceAllF pat rep f (List.drop (pat.length - 1) rest)
    else
      c :: replaceAllF pat rep f rest

/-- `re.sub(pat, rep, s)` for a literal pattern, as used by the scripts. -/
def replaceAll (pat rep s : String) : String :=
  String.mk (replaceAllF pat.data rep.data s.data.length s.data)

/-! ## Title Normalizer: `fix_youtube_title` (spotify_elt.py lines 104-114)

`re.sub(r"(\((.*?)\)|\[(.*?)\]|【(.*?)】)", "", youtube_title)`: the three
alternatives are distinguished by their (distinct) opening characters; each
matches lazily up to the first corresponding closing character, and `.` does
not cross a newline.  `subAllF` performs the left-to-right non-overlapping
replacement with fuel bounded by the input length. -/

/-- Opening bracket characters of the three regex alternatives. -/
def isOpen (c : Char) : Bool :=
  c = '(' || c = '[' || c = '【'

/-- The closing character matching each opening bracket. -/
def closeOf (c : Char) : Char :=
  if c = '(' then ')' else if c = '[' then ']' else '】'

/-- Lazy search for the closing character: returns the suffix after the first
occurrence of `cl`, failing if a newline is reached first (Python's `.`
does not match a newline, so the lazy `.*?` cannot cross one). -/
def splitClose (cl : Char) : List Char → Option (List Char)
  | [] => none
  | c :: rest =>
    if c = cl then some rest
    else if c = '\n' then none
    else splitClose cl rest

/-- Left-to-right non-overlapping removal of all bracketed spans. -/
def subAllF : Nat → List Char → List Char
  | 0, l => l
  | _ + 1, [] => []
  | f + 1, c :: rest =>
    if isOpen c then
      match splitClose (closeOf c) rest with
      | some rem => subAllF f rem
      | none => c :: subAllF f rest
    else
      c :: subAllF f rest

/-- `fix_youtube_title` (spotify_elt.py): remove all brackets and the content
inside — `re.sub(r"(\((.*?)\)|\[(.*?)\]|【(.*?)】)", "", youtube_title)`. -/
def fix_youtube_title (youtube_title : String) : String :=
  String.mk (subAllF youtube_title.data.length youtube_title.data)

/-! ## Candidate data model -/

/-- A candidate track returned by `sp.search(type="track")`. -/
structure CandTrack where
  uri : String
  albumUri : String
  name : String
  artists : List String
  durationMs : Int
  deriving Repr, DecidableEq

/-- One track of a candidate album, as returned by `sp.album(uri)`. -/
structure AlbumTrack where
  uri : String
  name : String
  durationMs : Int
  deriving Repr, DecidableEq

/-- A candidate album returned by `sp.search(type="album")`, together with
its fetched track list. -/
structure CandAlbum where
  uri : String
  name : String
  artists : List String
  tracks : List AlbumTrack
  deriving Repr, DecidableEq

/-- One still-available track object of a candidate playlist entry. -/
structure PlaylistTrack where
  uri : String
  name : String
  artists : List String
  durationMs : Int
  albumUri : String
  deriving Repr, DecidableEq

/-- A candidate playlist returned by `sp.search(type="playlist")`, with its
fetched entries; `none` models an entry whose `track` object is missing or
null (a deleted/unavailable track, skipped by the code). -/
structure CandPlaylist where
  uri : String
  id : String
  name : String
  owner : String
  entries : List (Option PlaylistTrack)
  deriving Repr, DecidableEq

/-- The video-library record consumed by the matcher (one row of the query in
`extract_videos`): `description` arrives already lowercased by the SQL. -/
structure VideoRow where
  logId : Nat
  youtubePlaylistId : String
  youtubeTitle : String
  youtubeChannel : String
  description : String
  durationMs : Int
  deriving Repr, DecidableEq

/-! ## Track scorer: loop body of `qsearch_track` (spotify_elt.py 154-190) -/

/-- Number of candidate artists whose lowercased name occurs in the
lowercased video title (`artists_in_title`). -/
def artistsInTitle (row : VideoRow) (t : CandTrack) : Nat :=
  t.artists.countP (fun a => strIn (lowerStr a) (lowerStr row.youtubeTitle))

/-- `track_in_title`: 1 when the lowercased candidate name occurs in the
lowercased video title, else 0. -/
def trackInTitle (row : VideoRow) (t : CandTrack) : Nat :=
  if strIn (lowerStr t.name) (lowerStr row.youtubeTitle) then 1 else 0

/-- The accept decision of the `qsearch_track` loop body: difference within
5 seconds, or both the track name and at least one artist present in the
video title. -/
def trackAccept (row : VideoRow) (t : CandTrack) : Bool :=
  decide ((t.durationMs - row.durationMs).natAbs ≤ 5000) ||
    (decide (trackInTitle row t ≠ 0) && decide (artistsInTitle row t ≠ 0))

/-- The match-result dictionary built by `qsearch_track` on acceptance. -/
structure TrackInfo where
  trackUri : String
  albumUri : String
  trackTitle : String
  trackArtists : String
  durationMs : Int
  foundOnTry : Nat
  differenceMs : Nat
  tracksInDesc : Nat
  q : String
  searchTypeId : Nat
  deriving Repr, DecidableEq

/-- Iteration of `qsearch_track` over the ranked search results, returning
the first accepted candidate's info. -/
def qsearchTrackAux (row : VideoRow) (q : String) (searchTypeId : Nat) :
    Nat → List CandTrack → Option TrackInfo
  | _, [] => none
  | i, t :: rest =>
    if trackAccept row t then
      some
        { trackUri := t.uri
          albumUri := t.albumUri
          trackTitle := t.name
          trackArtists := String.intercalate "; " t.artists
          durationMs := t.durationMs
          foundOnTry := i
          differenceMs := (t.durationMs - row.durationMs).natAbs
          tracksInDesc := 1
          q := q
          searchTypeId := searchTypeId }
    else
      qsearchTrackAux row q searchTypeId (i + 1) rest

/-- `qsearch_track` (spotify_elt.py): `items` are the ranked results of
`sp.search(q=q, limit=limit, type="track")`. -/
def qsearch_track (row : VideoRow) (items : List CandTrack) (q : String)
    (searchTypeId : Nat) : Option TrackInfo :=
  qsearchTrackAux row q searchTypeId 0 items

/-! ## Album scorer: loop body of `qsearch_album` (spotify_elt.py 272-326) -/

/-- `tracks_in_desc` for an album candidate: count of track titles whose
lowercased form occurs in the (already lowercased) video description. -/
def albumTracksInDesc (row : VideoRow) (a : CandAlbum) : Nat :=
  a.tracks.countP (fun t => strIn (lowerStr t.name) row.description)

/-- `diff` for an album candidate: the record duration minus the sum of the
candidate's track durations. -/
def albumDiff (row : VideoRow) (a : CandAlbum) : Int :=
  row.durationMs - (a.tracks.map AlbumTrack.durationMs).sum

/-- The per-candidate decision of the `qsearch_album` loop body.  The code
computes `percent_in_desc = (tracks_in_desc / len(tracks_uri)) * 100` before
any acceptance check, so a candidate with zero tracks raises a
ZeroDivisionError, modelled as `Except.error .zeroDivision`.  The comparison
`percent_in_desc >= 60` is rendered in exact arithmetic as
`60 * total_tracks ≤ 100 * tracks_in_desc`, which `percentCmp_iff` proves
equivalent to the rational formula `(tracks_in_desc / total) * 100 ≥ 60`. -/
def scoreAlbum (row : VideoRow) (a : CandAlbum) : Except PyError Bool :=
  if a.tracks.length = 0 then
    .error .zeroDivision
  else
    .ok (decide ((albumDiff row a).natAbs < 40000) ||
      (decide (a.tracks.length ≥ 4) &&
        decide (60 * a.tracks.length ≤ 100 * albumTracksInDesc row a)))

/-! ## Playlist scorer: loop body of `qsearch_playlist` (spotify_elt.py 420-488) -/

/-- The still-available track objects of a candidate playlist
(`if track.get("track", "")`). -/
def availTracks (p : CandPlaylist) : List PlaylistTrack :=
  p.entries.filterMap id

/-- `tracks_in_desc` for a playlist candidate, over available tracks only. -/
def playlistTracksInDesc (row : VideoRow) (p : CandPlaylist) : Nat :=
  (availTracks p).countP (fun t => strIn (lowerStr t.name) row.description)

/-- `diff` for a playlist candidate, over available tracks only. -/
def playlistDiff (row : VideoRow) (p : CandPlaylist) : Int :=
  row.durationMs - ((availTracks p).map PlaylistTrack.durationMs).sum

/-- The per-candidate decision of the `qsearch_playlist` loop body; as with
albums, `percent_in_desc` is computed before any check, so a playlist whose
entries are all unavailable raises a ZeroDivisionError. -/
def scorePlaylist (row : VideoRow) (p : CandPlaylist) : Except PyError Bool :=
  if (availTracks p).length = 0 then
    .error .zeroDivision
  else
    .ok (decide ((playlistDiff row p).natAbs < 40000) ||
      (decide ((availTracks p).length ≥ 4) &&
        decide (60 * (availTracks p).length ≤ 100 * playlistTracksInDesc row p)))

/-! ## Track query cascade: `find_track` (spotify_elt.py 124-151)

The search client `sp` is modelled as a pure function from a query string
and a limit to the ranked result list.  The first-strategy call in the
non-Topic branch, `qsearch_track(row, q=..., search_type_id=1, limit=2)`,
omits the required positional argument `sp`, so Python raises a TypeError
before issuing any search; this is modelled as `Except.error
.missingArgument`. -/

/-- `find_track` (spotify_elt.py): the three-strategy track cascade. -/
def find_track (sp : String → Nat → List CandTrack) (row : VideoRow) :
    Except PyError (Option TrackInfo) :=
  let step1 : Except PyError (Option TrackInfo) :=
    if strIn " - Topic" row.youtubeChannel then
      let artist := replaceAll " - Topic" "" row.youtubeChannel
      let artist := replaceAll "'" " " artist
      let q := "track:" ++ row.youtubeTitle ++ " artist:" ++ artist
      .ok (qsearch_track row (sp q 2) q 0)
    else
      .error .missingArgument
  match step1 with
  | .error e => .error e
  | .ok (some info) => .ok (some info)
  | .ok none =>
    let q2 := "track \"" ++ row.youtubeTitle ++ "\""
    match qsearch_track row (sp q2 2) q2 2 with
    | some info => .ok (some info)
    | none =>
      let artist := replaceAll " - Topic" "" row.youtubeChannel
      let q3 := artist ++ " " ++ row.youtubeTitle
      .ok (qsearch_track row (sp q3 2) q3 3)

/-! ## Playlist-id lookup (spotify_elt.py 117-121, spotify_etl.py 89-98) -/

/-- One row of the playlist mapping dataframe, in column order
`youtube_playlist_id, playlist_name, spotify_playlist_id`
(so `iloc[0, 2]` is the spotify id). -/
structure PlaylistRow where
  youtubePlaylistId : String
  playlistName : String
  spotifyPlaylistId : String
  deriving Repr, DecidableEq

/-- `get_user_playlist_id` (spotify_elt.py): select the rows whose
`youtube_playlist_id` equals the record's, and take `iloc[0, 2]`.  On an
empty selection `iloc[0, 2]` raises an IndexError; with several matches the
first is returned with no warning. -/
def get_user_playlist_id (row : VideoRow) (dfPlaylists : List PlaylistRow) :
    Except PyError String :=
  match dfPlaylists.filter (fun p => p.youtubePlaylistId = row.youtubePlaylistId) with
  | [] => .error .indexError
  | p :: _ => .ok p.spotifyPlaylistId

/-- A video row of the older script `spotify_etl.py` (joined on playlist
name). Only the fields used by `get_spotify_playlist_id` are modelled. -/
structure EtlVideoRow where
  playlistName : String
  title : String
  deriving Repr, DecidableEq

/-- `get_spotify_playlist_id` (spotify_etl.py): on an empty selection it logs
`... video "..." skipped.` and returns `None` — but its caller
`populate_spotify` then proceeds with `spotify_playlist_id = None`, which the
save functions treat as the liked-songs destination, so the record is not in
fact skipped. -/
def get_spotify_playlist_id (row : EtlVideoRow) (dfPlaylists : List PlaylistRow) :
    Option String :=
  match dfPlaylists.filter (fun p => p.playlistName = row.playlistName) with
  | [] => none
  | p :: _ => some p.spotifyPlaylistId

/-! ## Run state: the module-level dictionaries and lists of spotify_elt.py -/

/-- An entry of `distinct_tracks`:
`(album_uri, playlist_uri, track_title, track_artists, duration_ms)`. -/
structure TrackEntry where
  albumUri : String
  playlistUri : Option String
  title : String
  artists : String
  durationMs : Int
  deriving Repr, DecidableEq

/-- An entry of `distinct_albums`:
`(album_title, album_artists, duration_ms, total_tracks)`. -/
structure AlbumEntry where
  title : String
  artists : String
  durationMs : Int
  totalTracks : Nat
  deriving Repr, DecidableEq

/-- An entry of `distinct_playlists_others`:
`(playlist_title, playlist_owner, duration_ms, total_tracks)`. -/
structure PlaylistEntry where
  title : String
  owner : String
  durationMs : Int
  totalTracks : Nat
  deriving Repr, DecidableEq

/-- One row of the `spotify_log` lists:
`(log_id, uri, playlist_id, found_on_try, difference_ms, tracks_in_desc, q,
search_type_id, status)`. -/
structure LogEntry where
  logId : Nat
  uri : String
  playlistId : String
  foundOnTry : Nat
  differenceMs : Nat
  tracksInDesc : Nat
  q : String
  searchTypeId : Nat
  status : String
  deriving Repr, DecidableEq

/-- The module-level mutable state of spotify_elt.py. -/
structure EtlState where
  distinctAlbums : String → Option AlbumEntry
  distinctPlaylistsOthers : String → Option PlaylistEntry
  distinctTracks : String → Option TrackEntry
  albumsToLike : List String
  playlistsToLike : List String
  tracksToLike : List String
  playlistItems : String → List String
  logAlbums : List LogEntry
  logPlaylistsOthers : List LogEntry
  logTracks : List LogEntry

/-- The empty state at run start. -/
def initialState : EtlState :=
  { distinctAlbums := fun _ => none
    distinctPlaylistsOthers := fun _ => none
    distinctTracks := fun _ => none
    albumsToLike := []
    playlistsToLike := []
    tracksToLike := []
    playlistItems := fun _ => []
    logAlbums := []
    logPlaylistsOthers := []
    logTracks := [] }

/-- Point update of a string-keyed map. -/
def updMap {α : Type} (m : String → α) (k : String) (v : α) : String → α :=
  fun k' => if k' = k then v else m k'

/-- Membership test of `(uri, playlist_id)` against a log list — the
`(uri, playlist_id) in ((uri, playlist_id) for _, uri, playlist_id, *_ in log)`
generator expression. -/
def inLog (log : List LogEntry) (uri pid : String) : Bool :=
  log.any (fun e => e.uri == uri && e.playlistId == pid)

/-- Python truthiness of an optional string (`None` and `""` are falsy). -/
def optFalsy : Option String → Bool
  | none => true
  | some s => s == ""

/-- Truthiness guard of the `distinct_tracks` writes:
`not distinct_tracks.get(uri) or not distinct_tracks[uri][1]`. -/
def entryFalsy : Option TrackEntry → Bool
  | none => true
  | some e => optFalsy e.playlistUri

/-! ## Collector & Deduplicator (spotify_elt.py 193-218, 329-357, 491-516) -/

/-- `collect_track` (spotify_elt.py): duplicate check against the run
ledger, then the pre-run-liked check, then staging. -/
def collect_track (info : TrackInfo) (userPlaylistId : String)
    (likedTracksUri : List String) (s : EtlState) : String × EtlState :=
  if inLog s.logTracks info.trackUri userPlaylistId then
    ("skipped (saved during the run)", s)
  else if likedTracksUri.contains info.trackUri && (userPlaylistId == "0") then
    ("skipped (saved before the run)", s)
  else
    ("saved",
      if userPlaylistId ≠ "0" then
        if info.trackUri ∈ s.playlistItems userPlaylistId then s
        else
          { s with playlistItems :=
                     updMap s.playlistItems userPlaylistId
                       (s.playlistItems userPlaylistId ++ [info.trackUri]) }
      else
        { s with tracksToLike := s.tracksToLike ++ [info.trackUri] })

/-- The ledger row appended by `log_track`. -/
def trackLogEntry (info : TrackInfo) (userPlaylistId : String) (logId : Nat)
    (status : String) : LogEntry :=
  { logId := logId
    uri := info.trackUri
    playlistId := userPlaylistId
    foundOnTry := info.foundOnTry
    differenceMs := info.differenceMs
    tracksInDesc := info.tracksInDesc
    q := info.q
    searchTypeId := info.searchTypeId
    status := status }

/-- `log_track` (spotify_elt.py): guarded write to `distinct_tracks`
(the playlist reference is written as `None`), then a ledger append. -/
def log_track (info : TrackInfo) (userPlaylistId : String) (logId : Nat)
    (status : String) (s : EtlState) : EtlState :=
  let dt :=
    if entryFalsy (s.distinctTracks info.trackUri) then
      updMap s.distinctTracks info.trackUri
        (some
          { albumUri := info.albumUri
            playlistUri := none
            title := info.trackTitle
            artists := info.trackArtists
            durationMs := info.durationMs })
    else
      s.distinctTracks
  { s with
    distinctTracks := dt
    logTracks := s.logTracks ++ [trackLogEntry info userPlaylistId logId status] }

/-- The match-result dictionary built by `qsearch_album` on acceptance. -/
structure AlbumInfo where
  albumUri : String
  tracksUri : List String
  tracksInfo : List (String × String × Int)
  albumTitle : String
  albumArtists : String
  durationMs : Int
  totalTracks : Nat
  foundOnTry : Nat
  differenceMs : Nat
  tracksInDesc : Nat
  q : String
  searchTypeId : Nat
  deriving Repr, DecidableEq

/-- `list.extend(uri for uri in l if uri not in list)`: the generator's
membership test observes the list as it grows, so each element is appended
only if absent from the accumulated list. -/
def dedupeExtend (base l : List String) : List String :=
  l.foldl (fun acc u => if u ∈ acc then acc else acc ++ [u]) base

/-- `collect_album` (spotify_elt.py): ledger duplicate check, pre-run-liked
check, then staging of all constituent track URIs (deduplicated) or of the
album URI for liking. -/
def collect_album (info : AlbumInfo) (userPlaylistId : String)
    (likedAlbumsUri : List String) (s : EtlState) : String × EtlState :=
  if inLog s.logAlbums info.albumUri userPlaylistId then
    ("skipped (saved during the run)", s)
  else if likedAlbumsUri.contains info.albumUri && (userPlaylistId == "0") then
    ("skipped (saved before the run)", s)
  else
    ("saved",
      if userPlaylistId ≠ "0" then
        { s with playlistItems :=
                   updMap s.playlistItems userPlaylistId
                     (dedupeExtend (s.playlistItems userPlaylistId) info.tracksUri) }
      else
        { s with albumsToLike := s.albumsToLike ++ [info.albumUri] })

/-- Guarded `distinct_tracks` write for one album track
(`log_album`'s loop body, spotify_elt.py 370-382). -/
def logAlbumTrack (albumUri albumArtists : String)
    (m : String → Option TrackEntry) (t : String × String × Int) :
    String → Option TrackEntry :=
  if entryFalsy (m t.1) then
    updMap m t.1
      (some
        { albumUri := albumUri
          playlistUri := none
          title := t.2.1
          artists := albumArtists
          durationMs := t.2.2 })
  else
    m

/-- The ledger row appended by `log_album`. -/
def albumLogEntry (info : AlbumInfo) (userPlaylistId : String) (logId : Nat)
    (status : String) : LogEntry :=
  { logId := logId
    uri := info.albumUri
    playlistId := userPlaylistId
    foundOnTry := info.foundOnTry
    differenceMs := info.differenceMs
    tracksInDesc := info.tracksInDesc
    q := info.q
    searchTypeId := info.searchTypeId
    status := status }

/-- `log_album` (spotify_elt.py): unconditional `distinct_albums` write,
guarded `distinct_tracks` writes for every constituent track, ledger append. -/
def log_album (info : AlbumInfo) (userPlaylistId : String) (logId : Nat)
    (status : String) (s : EtlState) : EtlState :=
  { s with
    distinctAlbums := updMap s.distinctAlbums info.albumUri
      (some
        { title := info.albumTitle
          artists := info.albumArtists
          durationMs := info.durationMs
          totalTracks := info.totalTracks })
    distinctTracks :=
      info.tracksInfo.foldl (logAlbumTrack info.albumUri info.albumArtists)
        s.distinctTracks
    logAlbums := s.logAlbums ++ [albumLogEntry info userPlaylistId logId status] }

/-- The match-result dictionary built by `qsearch_playlist` on acceptance;
`tracksInfo` holds `(track uri, title, artists, duration ms, album uri)`. -/
structure PlaylistInfo where
  playlistUri : String
  playlistId : String
  tracksUri : List String
  tracksInfo : List (String × String × List String × Int × String)
  playlistTitle : String
  playlistOwner : String
  durationMs : Int
  totalTracks : Nat
  foundOnTry : Nat
  differenceMs : Nat
  tracksInDesc : Nat
  q : String
  searchTypeId : Nat
  deriving Repr, DecidableEq

/-- `collect_other_playlist` (spotify_elt.py): only the run-ledger duplicate
check — there is no pre-run-liked/followed check for playlists. -/
def collect_other_playlist (info : PlaylistInfo) (userPlaylistId : String)
    (s : EtlState) : String × EtlState :=
  if !(inLog s.logPlaylistsOthers info.playlistUri userPlaylistId) then
    ("saved",
      if userPlaylistId ≠ "0" then
        { s with playlistItems :=
                   updMap s.playlistItems userPlaylistId
                     (dedupeExtend (s.playlistItems userPlaylistId) info.tracksUri) }
      else
        { s with playlistsToLike := s.playlistsToLike ++ [info.playlistId] })
  else
    ("skipped (saved during the run)", s)

/-- Unconditional `distinct_tracks` write for one playlist track
(`log_other_playlist`'s loop body, spotify_elt.py 529-538). -/
def logPlaylistTrack (playlistUri : String)
    (m : String → Option TrackEntry)
    (t : String × String × List String × Int × String) :
    String → Option TrackEntry :=
  updMap m t.1
    (some
      { albumUri := t.2.2.2.2
        playlistUri := some playlistUri
        title := t.2.1
        artists := String.intercalate "; " t.2.2.1
        durationMs := t.2.2.2.1 })

/-- The ledger row appended by `log_other_playlist`. -/
def playlistLogEntry (info : PlaylistInfo) (userPlaylistId : String) (logId : Nat)
    (status : String) : LogEntry :=
  { logId := logId
    uri := info.playlistUri
    playlistId := userPlaylistId
    foundOnTry := info.foundOnTry
    differenceMs := info.differenceMs
    tracksInDesc := info.tracksInDesc
    q := info.q
    searchTypeId := info.searchTypeId
    status := status }

/-- `log_other_playlist` (spotify_elt.py): unconditional registry writes
(the per-track write sets the playlist reference with no guard), ledger
append. -/
def log_other_playlist (info : PlaylistInfo) (userPlaylistId : String)
    (logId : Nat) (status : String) (s : EtlState) : EtlState :=
  { s with
    distinctPlaylistsOthers := updMap s.distinctPlaylistsOthers info.playlistUri
      (some
        { title := info.playlistTitle
          owner := info.playlistOwner
          durationMs := info.durationMs
          totalTracks := info.totalTracks })
    distinctTracks :=
      info.tracksInfo.foldl (logPlaylistTrack info.playlistUri) s.distinctTracks
    logPlaylistsOthers := s.logPlaylistsOthers ++
      [playlistLogEntry info userPlaylistId logId status] }

/-- The collect-then-log sequence of `prepare_spotify` for a matched track. -/
def processTrack (info : TrackInfo) (userPlaylistId : String) (logId : Nat)
    (likedTracksUri : List String) (s : EtlState) : String × EtlState :=
  let r := collect_track info userPlaylistId likedTracksUri s
  (r.1, log_track info userPlaylistId logId r.1 r.2)

/-- The collect-then-log sequence of `prepare_spotify` for a matched album. -/
def processAlbum (info : AlbumInfo) (userPlaylistId : String) (logId : Nat)
    (likedAlbumsUri : List String) (s : EtlState) : String × EtlState :=
  let r := collect_album info userPlaylistId likedAlbumsUri s
  (r.1, log_album info userPlaylistId logId r.1 r.2)

/-! ## Concrete inputs used by the claim theorems -/

/-- A record whose duration alone would satisfy the album duration rule. -/
def rowC1 : VideoRow :=
  { logId := 2
    youtubePlaylistId := "PL1"
    youtubeTitle := "Empty Album"
    youtubeChannel := "Chan"
    description := "nothing here"
    durationMs := 0 }

/-- A candidate album with zero tracks. -/
def albumEmpty : CandAlbum :=
  { uri := "spotify:album:empty"
    name := "Empty"
    artists := ["Nobody"]
    tracks := [] }

/-- A record whose description names three of the five tracks of
`albumFive`, with a duration far from every candidate. -/
def rowC1b : VideoRow :=
  { logId := 3
    youtubePlaylistId := "PL1"
    youtubeTitle := "Great Album"
    youtubeChannel := "Chan"
    description := "tracklist: song a / song b / song c"
    durationMs := 1000000 }

/-- Five tracks, three of whose titles occur in `rowC1b`'s description:
`percent_in_desc` is exactly 60. -/
def albumFive : CandAlbum :=
  { uri := "spotify:album:five"
    name := "Great Album"
    artists := ["Artist"]
    tracks :=
      [ { uri := "t1", name := "Song A", durationMs := 1000 }
      , { uri := "t2", name := "Song B", durationMs := 1000 }
      , { uri := "t3", name := "Song C", durationMs := 1000 }
      , { uri := "t4", name := "Song D", durationMs := 1000 }
      , { uri := "t5", name := "Song E", durationMs := 1000 } ] }

/-- Three tracks, all of whose titles occur in `rowC1b`'s description:
100 percent, but fewer than 4 tracks. -/
def albumThree : CandAlbum :=
  { uri := "spotify:album:three"
    name := "Great Album"
    artists := ["Artist"]
    tracks :=
      [ { uri := "t1", name := "Song A", durationMs := 1000 }
      , { uri := "t2", name := "Song B", durationMs := 1000 }
      , { uri := "t3", name := "Song C", durationMs := 1000 } ] }

/-- A candidate playlist both of whose entries are unavailable tracks. -/
def playlistUnavail : CandPlaylist :=
  { uri := "spotify:playlist:u"
    id := "plu"
    name := "Mix"
    owner := "someone"
    entries := [none, none] }

/-- A record for the track-rule boundary checks. -/
def rowC2 : VideoRow :=
  { logId := 1
    youtubePlaylistId := "PL1"
    youtubeTitle := "Some Video"
    youtubeChannel := "Chan"
    description := "desc"
    durationMs := 200000 }

/-- Candidate track 5000 ms longer than `rowC2`, with no title/artist
overlap. -/
def candDiff5000 : CandTrack :=
  { uri := "spotify:track:1"
    albumUri := "spotify:album:1"
    name := "ZZZ"
    artists := ["QQQ"]
    durationMs := 205000 }

/-- Candidate track 5001 ms longer than `rowC2`, with no title/artist
overlap. -/
def candDiff5001 : CandTrack :=
  { uri := "spotify:track:2"
    albumUri := "spotify:album:1"
    name := "ZZZ"
    artists := ["QQQ"]
    durationMs := 205001 }

/-- The integer rendering of the percent threshold agrees with the rational
formula `(tracks_in_desc / total) * 100 ≥ 60` whenever `total ≠ 0`. -/
theorem percentCmp_iff (t n : Nat) (hn : n ≠ 0) :
    60 * n ≤ 100 * t ↔ ((t : ℚ) / (n : ℚ)) * 100 ≥ 60 := by
  have hpos : (0 : ℚ) < (n : ℚ) := by exact_mod_cast Nat.pos_of_ne_zero hn
  rw [ge_iff_le, div_mul_eq_mul_div, le_div_iff₀ hpos]
  rw [show (60 : ℚ) * (n : ℚ) = ((60 * n : ℕ) : ℚ) from by push_cast; ring]
  rw [show (t : ℚ) * 100 = ((100 * t : ℕ) : ℚ) from by push_cast; ring]
  exact Nat.cast_le.symm

/-! ## C1 -/

/-- C1 (counterexample): the claimed "accepts if and only if" fails as
stated.  For `rowC1` and the zero-track candidate `albumEmpty` the duration
condition `abs(diff) < 40000` holds, yet the scorer does not accept the
candidate — it raises a ZeroDivisionError instead, because
`percent_in_desc` is computed before any acceptance check. -/
theorem C1_counterexample :
    (albumDiff rowC1 albumEmpty).natAbs < 40000 ∧
      scoreAlbum rowC1 albumEmpty = .error .zeroDivision ∧
      scoreAlbum rowC1 albumEmpty ≠ .ok true := by
  refine ⟨by decide, rfl, ?_⟩
  intro h
  rw [show scoreAlbum rowC1 albumEmpty = .error .zeroDivision from rfl] at h
  exact Except.noConfusion h

/-- C1 (amended): for every video record and candidate album with at least
one track, the album scorer accepts the candidate iff
`abs(record.duration_ms - sum of track durations) < 40000`, or the album has
at least 4 tracks and the percentage of its track titles that are
case-insensitive substrings of the record's description is at least 60; in
particular an album with 5 tracks and 3 titles in the description (exactly
60 percent) is accepted at the boundary, and an album with 3 tracks and 100
percent of titles in the description is not accepted via the percentage
path.  (Zero-track candidates, excluded here, raise a ZeroDivisionError.) -/
theorem C1_amended :
    (∀ (row : VideoRow) (a : CandAlbum), a.tracks ≠ [] →
      (scoreAlbum row a = .ok true ↔
        ((albumDiff row a).natAbs < 40000 ∨
          (a.tracks.length ≥ 4 ∧
            ((albumTracksInDesc row a : ℚ) / (a.tracks.length : ℚ)) * 100 ≥ 60)))) ∧
    scoreAlbum rowC1b albumFive = .ok true ∧
    scoreAlbum rowC1b albumThree = .ok false := by
  refine ⟨?_, rfl, rfl⟩
  intro row a ha
  have hlen : a.tracks.length ≠ 0 := by
    simpa using (List.length_pos.mpr ha).ne'
  rw [scoreAlbum, if_neg hlen]
  simp only [Except.ok.injEq, Bool.or_eq_true, Bool.and_eq_true, decide_eq_true_eq]
  rw [percentCmp_iff _ _ hlen]

/-- C1 (witness): `C1_amended` applied to the concrete boundary album with
5 tracks and exactly 60 percent of titles in the description. -/
theorem C1_witness : scoreAlbum rowC1b albumFive = .ok true :=
  (C1_amended.1 rowC1b albumFive (by decide)).mpr
    (Or.inr ⟨by decide, by
      rw [show albumTracksInDesc rowC1b albumFive = 3 from by decide,
        show albumFive.tracks.length = 5 from rfl]
      norm_num⟩)

/-! ## C2 -/

/-- C2 (confirmed): the track scorer accepts a candidate iff
`abs(candidate.duration_ms - record.duration_ms) <= 5000`, or the
candidate's title is a case-insensitive substring of the record's title and
at least one candidate artist name is a case-insensitive substring of the
record's title; a duration difference of exactly 5000 ms accepts, and one of
5001 ms with no title/artist overlap rejects. -/
theorem C2_track_rule :
    (∀ (row : VideoRow) (t : CandTrack),
      trackAccept row t = true ↔
        ((t.durationMs - row.durationMs).natAbs ≤ 5000 ∨
          (strIn (lowerStr t.name) (lowerStr row.youtubeTitle) = true ∧
            ∃ a ∈ t.artists, strIn (lowerStr a) (lowerStr row.youtubeTitle) = true))) ∧
    trackAccept rowC2 candDiff5000 = true ∧
    trackAccept rowC2 candDiff5001 = false := by
  refine ⟨?_, by decide, by decide⟩
  intro row t
  have h1 : (trackInTitle row t ≠ 0) ↔
      strIn (lowerStr t.name) (lowerStr row.youtubeTitle) = true := by
    unfold trackInTitle
    split <;> simp_all
  have h2 : (artistsInTitle row t ≠ 0) ↔
      ∃ a ∈ t.artists, strIn (lowerStr a) (lowerStr row.youtubeTitle) = true := by
    rw [← Nat.pos_iff_ne_zero]
    exact List.countP_pos_iff
  simp only [trackAccept, Bool.or_eq_true, Bool.and_eq_true, decide_eq_true_eq]
  rw [h1, h2]

/-! ## C3 -/

/-- C3 (code bug): the percent-in-description computation is NOT guarded.
For an album candidate with zero tracks, and for a playlist candidate whose
entries are all unavailable, `tracks_in_desc / len(tracks_uri)` is evaluated
before any acceptance check and raises a ZeroDivisionError instead of
rejecting the candidate. -/
theorem C3_zero_division :
    scoreAlbum rowC1 albumEmpty = .error .zeroDivision ∧
      scorePlaylist rowC1 playlistUnavail = .error .zeroDivision :=
  ⟨rfl, rfl⟩

/-! ## C7 -/

/-- A record from a regular (non-Topic) channel. -/
def rowNonTopic : VideoRow :=
  { logId := 10
    youtubePlaylistId := "PL1"
    youtubeTitle := "Song X"
    youtubeChannel := "Some Channel"
    description := "d"
    durationMs := 100000 }

/-- A record from a Topic channel whose artist name contains an apostrophe. -/
def rowTopic : VideoRow :=
  { logId := 11
    youtubePlaylistId := "PL1"
    youtubeTitle := "Song Y"
    youtubeChannel := "Artist's Band - Topic"
    description := "d"
    durationMs := 100000 }

/-- A candidate accepted via the duration rule (difference 0). -/
def candY : CandTrack :=
  { uri := "spotify:track:y"
    albumUri := "spotify:album:y"
    name := "Song Y"
    artists := ["Artist s Band"]
    durationMs := 100000 }

/-- A search client that finds nothing. -/
def spEmpty : String → Nat → List CandTrack := fun _ _ => []

/-- A search client that returns `candY` for all three cascade queries of
`rowTopic` — used to show the cascade stops at the first strategy. -/
def spAll : String → Nat → List CandTrack := fun q _ =>
  if q = "track:Song Y artist:Artist s Band" ∨ q = "track \"Song Y\"" ∨
      q = "Artist's Band Song Y" then [candY] else []

/-- A search client answering only the second-strategy query. -/
def spT2 : String → Nat → List CandTrack := fun q _ =>
  if q = "track \"Song Y\"" then [candY] else []

/-- A search client answering only the third-strategy query. -/
def spT3 : String → Nat → List CandTrack := fun q _ =>
  if q = "Artist's Band Song Y" then [candY] else []

/-- C7 (code bug): for a record from a non-Topic channel the first-strategy
call omits the required `sp` argument, so `find_track` raises a TypeError
instead of issuing the plain free-text query.  The Topic branch behaves as
the claim states: strategy one scopes artist (marker and apostrophes
stripped) and track title (search_type_id 0) and the cascade stops there on
acceptance; on no acceptance, strategy two is the literal phrase
`track "<title>"` (search_type_id 2) and strategy three is the
marker-stripped channel name followed by the title (search_type_id 3); a
fully exhausted cascade yields the not-found outcome. -/
theorem C7_cascade :
    find_track spEmpty rowNonTopic = .error .missingArgument ∧
    find_track spAll rowTopic =
      .ok (some
        { trackUri := "spotify:track:y"
          albumUri := "spotify:album:y"
          trackTitle := "Song Y"
          trackArtists := "Artist s Band"
          durationMs := 100000
          foundOnTry := 0
          differenceMs := 0
          tracksInDesc := 1
          q := "track:Song Y artist:Artist s Band"
          searchTypeId := 0 }) ∧
    find_track spT2 rowTopic =
      .ok (some
        { trackUri := "spotify:track:y"
          albumUri := "spotify:album:y"
          trackTitle := "Song Y"
          trackArtists := "Artist s Band"
          durationMs := 100000
          foundOnTry := 0
          differenceMs := 0
          tracksInDesc := 1
          q := "track \"Song Y\""
          searchTypeId := 2 }) ∧
    find_track spT3 rowTopic =
      .ok (some
        { trackUri := "spotify:track:y"
          albumUri := "spotify:album:y"
          trackTitle := "Song Y"
          trackArtists := "Artist s Band"
          durationMs := 100000
          foundOnTry := 0
          differenceMs := 0
          tracksInDesc := 1
          q := "Artist's Band Song Y"
          searchTypeId := 3 }) ∧
    find_track spEmpty rowTopic = .ok none :=
  ⟨rfl, rfl, rfl, rfl, rfl⟩

/-! ## C8 -/

/-- A record whose playlist reference matches no mapping row. -/
def rowC8 : VideoRow :=
  { logId := 20
    youtubePlaylistId := "YTPL9"
    youtubeTitle := "Video"
    youtubeChannel := "Chan"
    description := "d"
    durationMs := 100000 }

/-- A mapping table with no row for `rowC8`. -/
def dfNoMatch : List PlaylistRow :=
  [{ youtubePlaylistId := "YTPL1", playlistName := "A", spotifyPlaylistId := "SP1" }]

/-- A mapping table with two rows for `rowC8`. -/
def dfTwoMatch : List PlaylistRow :=
  [ { youtubePlaylistId := "YTPL9", playlistName := "A", spotifyPlaylistId := "SP1" }
  , { youtubePlaylistId := "YTPL9", playlistName := "B", spotifyPlaylistId := "SP2" } ]

/-- An older-script record whose playlist name matches no mapping row. -/
def etlRowC8 : EtlVideoRow := { playlistName := "Missing", title := "V" }

/-- C8 (code bug): with zero matching mapping rows, `get_user_playlist_id`
(spotify_elt.py) raises an IndexError (`iloc[0, 2]` on an empty selection)
instead of skipping the record with a warning; with multiple matching rows
it silently proceeds with the first match (no warning).  In the older
spotify_etl.py, `get_spotify_playlist_id` returns `None` on zero matches
after logging "skipped", but its caller then proceeds with the None
destination, so the record is not skipped there either. -/
theorem C8_playlist_lookup :
    get_user_playlist_id rowC8 dfNoMatch = .error .indexError ∧
    get_user_playlist_id rowC8 dfTwoMatch = .ok "SP1" ∧
    get_spotify_playlist_id etlRowC8 dfNoMatch = none :=
  ⟨rfl, rfl, rfl⟩

/-! ## C10 -/

/-- C10 (confirmed): `collect_other_playlist` never assigns the status
"skipped (saved before the run)": a matched external playlist is checked
only against the run ledger, and when the pair is fresh and the destination
is the global-library sentinel "0" the playlist is staged for liking with
status "saved" — regardless of any pre-run followed state. -/
theorem C10_no_before_run :
    ∀ (info : PlaylistInfo) (pid : String) (s : EtlState),
      ((collect_other_playlist info pid s).1 = "saved" ∨
        (collect_other_playlist info pid s).1 = "skipped (saved during the run)") ∧
      (collect_other_playlist info pid s).1 ≠ "skipped (saved before the run)" ∧
      (inLog s.logPlaylistsOthers info.playlistUri pid = false → pid = "0" →
        (collect_other_playlist info pid s).1 = "saved" ∧
        (collect_other_playlist info pid s).2.playlistsToLike =
          s.playlistsToLike ++ [info.playlistId]) := by
  intro info pid s
  refine ⟨?_, ?_, ?_⟩
  · unfold collect_other_playlist
    split
    · exact Or.inl rfl
    · exact Or.inr rfl
  · unfold collect_other_playlist
    split
    · simp
    · simp
  · intro h hpid
    subst hpid
    unfold collect_other_playlist
    rw [h]
    simp

/-- A concrete matched playlist used by witnesses. -/
def pInfoC10 : PlaylistInfo :=
  { playlistUri := "spotify:playlist:p"
    playlistId := "p"
    tracksUri := ["ta", "tb"]
    tracksInfo :=
      [ ("ta", "A", ["X"], (1000 : Int), "ala")
      , ("tb", "B", ["Y"], (2000 : Int), "alb") ]
    playlistTitle := "Mix"
    playlistOwner := "owner"
    durationMs := 3000
    totalTracks := 2
    foundOnTry := 0
    differenceMs := 0
    tracksInDesc := 2
    q := "Mix"
    searchTypeId := 1 }

/-- C10 (witness): `C10_no_before_run` at a concrete playlist, the sentinel
destination "0" and the empty run state. -/
theorem C10_witness :
    (collect_other_playlist pInfoC10 "0" initialState).1 = "saved" ∧
    (collect_other_playlist pInfoC10 "0" initialState).2.playlistsToLike =
      initialState.playlistsToLike ++ [pInfoC10.playlistId] :=
  (C10_no_before_run pInfoC10 "0" initialState).2.2 rfl rfl

/-! ## C6 -/

/-- Appending an element not already present preserves `Nodup`. -/
theorem nodup_append_single {l : List String} {a : String}
    (h : l.Nodup) (ha : a ∉ l) : (l ++ [a]).Nodup := by
  simp [List.nodup_append, h, ha]

/-- The live-list `extend` with membership filtering preserves `Nodup` of
the accumulated list. -/
theorem dedupeExtend_nodup (l : List String) :
    ∀ base : List String, base.Nodup → (dedupeExtend base l).Nodup := by
  induction l with
  | nil => intro base h; exact h
  | cons u rest ih =>
    intro base h
    unfold dedupeExtend
    rw [List.foldl_cons]
    refine ih _ ?_
    split
    · exact h
    · exact nodup_append_single h (by assumption)

/-- C6 (confirmed): every collect operation preserves the invariant that no
destination's staged track-URI list contains duplicates — `collect_track`
appends a single URI only when absent, and `collect_album` /
`collect_other_playlist` extend through a generator whose membership test
observes the growing list, so shared tracks are staged once. -/
theorem C6_no_duplicate_staging :
    (∀ (info : TrackInfo) (pid : String) (liked : List String) (s : EtlState),
      (∀ k, (s.playlistItems k).Nodup) →
      ∀ k, ((collect_track info pid liked s).2.playlistItems k).Nodup) ∧
    (∀ (info : AlbumInfo) (pid : String) (liked : List String) (s : EtlState),
      (∀ k, (s.playlistItems k).Nodup) →
      ∀ k, ((collect_album info pid liked s).2.playlistItems k).Nodup) ∧
    (∀ (info : PlaylistInfo) (pid : String) (s : EtlState),
      (∀ k, (s.playlistItems k).Nodup) →
      ∀ k, ((collect_other_playlist info pid s).2.playlistItems k).Nodup) := by
  refine ⟨?_, ?_, ?_⟩
  · intro info pid liked s hs k
    unfold collect_track
    split
    · exact hs k
    · split
      · exact hs k
      · split
        · split
          · exact hs k
          · simp only [updMap]
            split
            · exact nodup_append_single (hs pid) (by assumption)
            · exact hs k
        · exact hs k
  · intro info pid liked s hs k
    unfold collect_album
    split
    · exact hs k
    · split
      · exact hs k
      · split
        · simp only [updMap]
          split
          · exact dedupeExtend_nodup _ _ (hs pid)
          · exact hs k
        · exact hs k
  · intro info pid s hs k
    unfold collect_other_playlist
    split
    · split
      · simp only [updMap]
        split
        · exact dedupeExtend_nodup _ _ (hs pid)
        · exact hs k
      · exact hs k
    · exact hs k

/-- A matched album whose own track-URI list contains a duplicate. -/
def aInfoC6 : AlbumInfo :=
  { albumUri := "spotify:album:x"
    tracksUri := ["t1", "t1", "t2"]
    tracksInfo := [("t1", "A", (1000 : Int)), ("t1", "A", (1000 : Int)),
      ("t2", "B", (2000 : Int))]
    albumTitle := "X"
    albumArtists := "Ar"
    durationMs := 4000
    totalTracks := 3
    foundOnTry := 0
    differenceMs := 0
    tracksInDesc := 0
    q := "X"
    searchTypeId := 0 }

/-- C6 (witness): `C6_no_duplicate_staging` applied to a concrete album
carrying a duplicated track URI, staged into the empty state. -/
theorem C6_witness :
    ((collect_album aInfoC6 "p1" [] initialState).2.playlistItems "p1").Nodup :=
  C6_no_duplicate_staging.2.1 aInfoC6 "p1" [] initialState
    (fun _ => List.nodup_nil) "p1"

/-! ## C5 -/

/-- A registry entry whose playlist reference is already set. -/
def entryP1 : TrackEntry :=
  { albumUri := "spotify:album:a1"
    playlistUri := some "spotify:playlist:P1"
    title := "T"
    artists := "A"
    durationMs := 1000 }

/-- A run state in which track `t1` carries the playlist reference `P1`. -/
def stateP1 : EtlState :=
  { initialState with
    distinctTracks := updMap initialState.distinctTracks "t1" (some entryP1) }

/-- A matched playlist `P2` that also contains track `t1`. -/
def pInfoP2 : PlaylistInfo :=
  { playlistUri := "spotify:playlist:P2"
    playlistId := "P2id"
    tracksUri := ["t1"]
    tracksInfo := [("t1", "T", ["A2"], (1200 : Int), "spotify:album:a2")]
    playlistTitle := "Other"
    playlistOwner := "owner"
    durationMs := 1200
    totalTracks := 1
    foundOnTry := 0
    differenceMs := 0
    tracksInDesc := 1
    q := "Other"
    searchTypeId := 1 }

/-- C5 (counterexample): "the first non-null playlist reference wins" fails.
Track `t1`'s reference is `P1` (non-null), yet `log_other_playlist` for
playlist `P2` overwrites the whole entry unconditionally, leaving the
reference `P2` ≠ `P1`. -/
theorem C5_counterexample :
    stateP1.distinctTracks "t1" = some entryP1 ∧
    entryP1.playlistUri = some "spotify:playlist:P1" ∧
    (log_other_playlist pInfoP2 "0" 1 "saved" stateP1).distinctTracks "t1" =
      some
        { albumUri := "spotify:album:a2"
          playlistUri := some "spotify:playlist:P2"
          title := "T"
          artists := "A2"
          durationMs := 1200 } ∧
    (some "spotify:playlist:P2" : Option String) ≠ some "spotify:playlist:P1" :=
  ⟨rfl, rfl, rfl, by decide⟩

/-- The truthiness guard evaluates to false on an entry whose playlist
reference is a nonempty string. -/
theorem entryFalsy_false {e : TrackEntry} {p : String}
    (hp : e.playlistUri = some p) (hne : p ≠ "") :
    entryFalsy (some e) = false := by
  simp only [entryFalsy, optFalsy, hp]
  exact beq_eq_false_iff_ne.mpr hne

/-- `log_album`'s per-track fold leaves an entry with a truthy playlist
reference untouched. -/
theorem log_album_fold_preserve (au aa : String) (t : String) (e : TrackEntry)
    (p : String) (hp : e.playlistUri = some p) (hne : p ≠ "") :
    ∀ (l : List (String × String × Int)) (m : String → Option TrackEntry),
      m t = some e → (l.foldl (logAlbumTrack au aa) m) t = some e := by
  intro l
  induction l with
  | nil => intro m hm; exact hm
  | cons trk rest ih =>
    intro m hm
    rw [List.foldl_cons]
    refine ih _ ?_
    unfold logAlbumTrack
    by_cases hteq : trk.1 = t
    · subst hteq
      rw [hm, entryFalsy_false hp hne]
      simp only [Bool.false_eq_true, if_false]
      exact hm
    · split
      · simp only [updMap]
        rw [if_neg (fun hc => hteq hc.symm)]
        exact hm
      · exact hm

/-- `log_other_playlist`'s per-track fold keeps the playlist reference
non-null (it either leaves the entry alone or writes its own playlist
URI). -/
theorem log_playlist_fold_preserve (u : String) (t : String) :
    ∀ (l : List (String × String × List String × Int × String))
      (m : String → Option TrackEntry),
      (∃ e, m t = some e ∧ e.playlistUri.isSome) →
      ∃ e, (l.foldl (logPlaylistTrack u) m) t = some e ∧ e.playlistUri.isSome := by
  intro l
  induction l with
  | nil => intro m hm; exact hm
  | cons trk rest ih =>
    intro m hm
    rw [List.foldl_cons]
    refine ih _ ?_
    unfold logPlaylistTrack
    simp only [updMap]
    by_cases hteq : t = trk.1
    · rw [if_pos hteq]
      exact ⟨_, rfl, rfl⟩
    · rw [if_neg hteq]
      exact hm

/-- C5 (amended): once a track's playlist reference holds a nonempty string,
no registry-updating operation clears it back to null: `log_track` and
`log_album` leave the whole entry unchanged (their guarded writes fire only
when the reference is falsy), while `log_other_playlist` may overwrite the
entry — but always with its own non-null playlist URI, so the reference
stays non-null (the first non-null value does not always win, per
`C5_counterexample`). -/
theorem C5_amended :
    (∀ (info : TrackInfo) (pid : String) (lid : Nat) (st : String) (s : EtlState)
        (t : String) (e : TrackEntry) (p : String),
      s.distinctTracks t = some e → e.playlistUri = some p → p ≠ "" →
      (log_track info pid lid st s).distinctTracks t = some e) ∧
    (∀ (info : AlbumInfo) (pid : String) (lid : Nat) (st : String) (s : EtlState)
        (t : String) (e : TrackEntry) (p : String),
      s.distinctTracks t = some e → e.playlistUri = some p → p ≠ "" →
      (log_album info pid lid st s).distinctTracks t = some e) ∧
    (∀ (info : PlaylistInfo) (pid : String) (lid : Nat) (st : String) (s : EtlState)
        (t : String) (e : TrackEntry) (p : String),
      s.distinctTracks t = some e → e.playlistUri = some p → p ≠ "" →
      ∃ e2, (log_other_playlist info pid lid st s).distinctTracks t = some e2 ∧
        e2.playlistUri.isSome) := by
  refine ⟨?_, ?_, ?_⟩
  · intro info pid lid st s t e p hm hp hne
    unfold log_track
    simp only
    by_cases hteq : info.trackUri = t
    · subst hteq
      rw [hm, entryFalsy_false hp hne]
      simp only [Bool.false_eq_true, if_false]
      exact hm
    · split
      · simp only [updMap]
        rw [if_neg (fun hc => hteq hc.symm)]
        exact hm
      · exact hm
  · intro info pid lid st s t e p hm hp hne
    unfold log_album
    simp only
    exact log_album_fold_preserve _ _ t e p hp hne _ _ hm
  · intro info pid lid st s t e p hm hp hne
    unfold log_other_playlist
    simp only
    exact log_playlist_fold_preserve _ t _ _ ⟨e, hm, by rw [hp]; rfl⟩

/-- C5 (witness): `C5_amended` applied to the state in which `t1` carries
reference `P1` and a later `log_other_playlist` for `P2` runs. -/
theorem C5_witness :
    ∃ e2, (log_other_playlist pInfoP2 "0" 1 "saved" stateP1).distinctTracks "t1" =
      some e2 ∧ e2.playlistUri.isSome :=
  C5_amended.2.2 pInfoP2 "0" 1 "saved" stateP1 "t1" entryP1
    "spotify:playlist:P1" rfl rfl (by decide)

/-! ## C4 -/

/-- `collect_track` never changes the track ledger. -/
theorem collect_track_keeps_log (info : TrackInfo) (pid : String)
    (liked : List String) (s : EtlState) :
    (collect_track info pid liked s).2.logTracks = s.logTracks := by
  unfold collect_track
  split
  · rfl
  · split
    · rfl
    · split
      · split
        · rfl
        · rfl
      · rfl

/-- `collect_album` never changes the album ledger. -/
theorem collect_album_keeps_log (info : AlbumInfo) (pid : String)
    (liked : List String) (s : EtlState) :
    (collect_album info pid liked s).2.logAlbums = s.logAlbums := by
  unfold collect_album
  split
  · rfl
  · split
    · rfl
    · split
      · rfl
      · rfl

/-- Processing a fresh track twice for the same destination: first "saved",
then "skipped (saved during the run)", the second pass staging nothing. -/
theorem processTrack_fresh_twice :
    ∀ (i1 i2 : TrackInfo) (pid : String) (lid1 lid2 : Nat)
      (liked : List String) (s : EtlState),
      i1.trackUri = i2.trackUri →
      inLog s.logTracks i1.trackUri pid = false →
      (liked.contains i1.trackUri && (pid == "0")) = false →
      (processTrack i1 pid lid1 liked s).1 = "saved" ∧
      (processTrack i2 pid lid2 liked (processTrack i1 pid lid1 liked s).2).1 =
        "skipped (saved during the run)" ∧
      (processTrack i2 pid lid2 liked
          (processTrack i1 pid lid1 liked s).2).2.logTracks =
        s.logTracks ++
          [trackLogEntry i1 pid lid1 "saved",
           trackLogEntry i2 pid lid2 "skipped (saved during the run)"] ∧
      (processTrack i2 pid lid2 liked
          (processTrack i1 pid lid1 liked s).2).2.playlistItems =
        (processTrack i1 pid lid1 liked s).2.playlistItems ∧
      (processTrack i2 pid lid2 liked
          (processTrack i1 pid lid1 liked s).2).2.tracksToLike =
        (processTrack i1 pid lid1 liked s).2.tracksToLike := by
  intro i1 i2 pid lid1 lid2 liked s h1 h2 h3
  have hs1 : (collect_track i1 pid liked s).1 = "saved" := by
    unfold collect_track
    rw [h2, h3]
    simp
  have hlog1 : (processTrack i1 pid lid1 liked s).2.logTracks =
      s.logTracks ++ [trackLogEntry i1 pid lid1 "saved"] := by
    show ((collect_track i1 pid liked s).2.logTracks ++
        [trackLogEntry i1 pid lid1 (collect_track i1 pid liked s).1]) = _
    rw [collect_track_keeps_log, hs1]
  have hin2 : inLog ((processTrack i1 pid lid1 liked s).2.logTracks)
      i2.trackUri pid = true := by
    rw [hlog1]
    unfold inLog
    rw [List.any_append]
    simp [inLog, trackLogEntry, h1]
  have hs2 : (collect_track i2 pid liked (processTrack i1 pid lid1 liked s).2) =
      ("skipped (saved during the run)", (processTrack i1 pid lid1 liked s).2) := by
    unfold collect_track
    rw [hin2]
    simp
  refine ⟨hs1, ?_, ?_, ?_, ?_⟩
  · show (collect_track i2 pid liked (processTrack i1 pid lid1 liked s).2).1 = _
    rw [hs2]
  · show ((collect_track i2 pid liked (processTrack i1 pid lid1 liked s).2).2.logTracks
        ++ [trackLogEntry i2 pid lid2
            (collect_track i2 pid liked (processTrack i1 pid lid1 liked s).2).1]) = _
    rw [hs2]
    show ((processTrack i1 pid lid1 liked s).2.logTracks ++ _) = _
    rw [hlog1, List.append_assoc]
    rfl
  · show (collect_track i2 pid liked
        (processTrack i1 pid lid1 liked s).2).2.playlistItems = _
    rw [hs2]
  · show (collect_track i2 pid liked
        (processTrack i1 pid lid1 liked s).2).2.tracksToLike = _
    rw [hs2]

/-- Processing a fresh album twice for the same destination: first "saved",
then "skipped (saved during the run)", the second pass staging nothing. -/
theorem processAlbum_fresh_twice :
    ∀ (i1 i2 : AlbumInfo) (pid : String) (lid1 lid2 : Nat)
      (liked : List String) (s : EtlState),
      i1.albumUri = i2.albumUri →
      inLog s.logAlbums i1.albumUri pid = false →
      (liked.contains i1.albumUri && (pid == "0")) = false →
      (processAlbum i1 pid lid1 liked s).1 = "saved" ∧
      (processAlbum i2 pid lid2 liked (processAlbum i1 pid lid1 liked s).2).1 =
        "skipped (saved during the run)" ∧
      (processAlbum i2 pid lid2 liked
          (processAlbum i1 pid lid1 liked s).2).2.logAlbums =
        s.logAlbums ++
          [albumLogEntry i1 pid lid1 "saved",
           albumLogEntry i2 pid lid2 "skipped (saved during the run)"] ∧
      (processAlbum i2 pid lid2 liked
          (processAlbum i1 pid lid1 liked s).2).2.playlistItems =
        (processAlbum i1 pid lid1 liked s).2.playlistItems ∧
      (processAlbum i2 pid lid2 liked
          (processAlbum i1 pid lid1 liked s).2).2.albumsToLike =
        (processAlbum i1 pid lid1 liked s).2.albumsToLike := by
  intro i1 i2 pid lid1 lid2 liked s h1 h2 h3
  have hs1 : (collect_album i1 pid liked s).1 = "saved" := by
    unfold collect_album
    rw [h2, h3]
    simp
  have hlog1 : (processAlbum i1 pid lid1 liked s).2.logAlbums =
      s.logAlbums ++ [albumLogEntry i1 pid lid1 "saved"] := by
    show ((collect_album i1 pid liked s).2.logAlbums ++
        [albumLogEntry i1 pid lid1 (collect_album i1 pid liked s).1]) = _
    rw [collect_album_keeps_log, hs1]
  have hin2 : inLog ((processAlbum i1 pid lid1 liked s).2.logAlbums)
      i2.albumUri pid = true := by
    rw [hlog1]
    unfold inLog
    rw [List.any_append]
    simp [inLog, albumLogEntry, h1]
  have hs2 : (collect_album i2 pid liked (processAlbum i1 pid lid1 liked s).2) =
      ("skipped (saved during the run)", (processAlbum i1 pid lid1 liked s).2) := by
    unfold collect_album
    rw [hin2]
    simp
  refine ⟨hs1, ?_, ?_, ?_, ?_⟩
  · show (collect_album i2 pid liked (processAlbum i1 pid lid1 liked s).2).1 = _
    rw [hs2]
  · show ((collect_album i2 pid liked (processAlbum i1 pid lid1 liked s).2).2.logAlbums
        ++ [albumLogEntry i2 pid lid2
            (collect_album i2 pid liked (processAlbum i1 pid lid1 liked s).2).1]) = _
    rw [hs2]
    show ((processAlbum i1 pid lid1 liked s).2.logAlbums ++ _) = _
    rw [hlog1, List.append_assoc]
    rfl
  · show (collect_album i2 pid liked
        (processAlbum i1 pid lid1 liked s).2).2.playlistItems = _
    rw [hs2]
  · show (collect_album i2 pid liked
        (processAlbum i1 pid lid1 liked s).2).2.albumsToLike = _
    rw [hs2]

/-- A pre-run-liked track sent to the sentinel destination "0" is skipped on
first encounter and not staged. -/
theorem processTrack_liked_before :
    ∀ (i : TrackInfo) (pid : String) (lid : Nat) (liked : List String)
      (s : EtlState),
      inLog s.logTracks i.trackUri pid = false →
      liked.contains i.trackUri = true → pid = "0" →
      (processTrack i pid lid liked s).1 = "skipped (saved before the run)" ∧
      (processTrack i pid lid liked s).2.playlistItems = s.playlistItems ∧
      (processTrack i pid lid liked s).2.tracksToLike = s.tracksToLike ∧
      (processTrack i pid lid liked s).2.logTracks =
        s.logTracks ++ [trackLogEntry i pid lid "skipped (saved before the run)"] := by
  intro i pid lid liked s h2 hl hpid
  subst hpid
  have hst : collect_track i "0" liked s = ("skipped (saved before the run)", s) := by
    unfold collect_track
    rw [h2, hl]
    simp
  refine ⟨?_, ?_, ?_, ?_⟩
  · show (collect_track i "0" liked s).1 = _
    rw [hst]
  · show (collect_track i "0" liked s).2.playlistItems = _
    rw [hst]
  · show (collect_track i "0" liked s).2.tracksToLike = _
    rw [hst]
  · show ((collect_track i "0" liked s).2.logTracks ++
        [trackLogEntry i "0" lid (collect_track i "0" liked s).1]) = _
    rw [hst]

/-- A pre-run-liked album sent to the sentinel destination "0" is skipped on
first encounter and not staged. -/
theorem processAlbum_liked_before :
    ∀ (i : AlbumInfo) (pid : String) (lid : Nat) (liked : List String)
      (s : EtlState),
      inLog s.logAlbums i.albumUri pid = false →
      liked.contains i.albumUri = true → pid = "0" →
      (processAlbum i pid lid liked s).1 = "skipped (saved before the run)" ∧
      (processAlbum i pid lid liked s).2.playlistItems = s.playlistItems ∧
      (processAlbum i pid lid liked s).2.albumsToLike = s.albumsToLike ∧
      (processAlbum i pid lid liked s).2.logAlbums =
        s.logAlbums ++ [albumLogEntry i pid lid "skipped (saved before the run)"] := by
  intro i pid lid liked s h2 hl hpid
  subst hpid
  have hst : collect_album i "0" liked s = ("skipped (saved before the run)", s) := by
    unfold collect_album
    rw [h2, hl]
    simp
  refine ⟨?_, ?_, ?_, ?_⟩
  · show (collect_album i "0" liked s).1 = _
    rw [hst]
  · show (collect_album i "0" liked s).2.playlistItems = _
    rw [hst]
  · show (collect_album i "0" liked s).2.albumsToLike = _
    rw [hst]
  · show ((collect_album i "0" liked s).2.logAlbums ++
        [albumLogEntry i "0" lid (collect_album i "0" liked s).1]) = _
    rw [hst]

/-- C4 (confirmed): for tracks and albums, collecting the same
(entity_uri, destination) pair twice in one run appends the ledger statuses
["saved", "skipped (saved during the run)"] in that order, the duplicate
being detected against the run ledger with the second pass staging nothing;
and an entity in the pre-run-liked snapshot, collected with destination "0",
receives "skipped (saved before the run)" on first encounter and is not
staged. -/
theorem C4_dedup_statuses :
    (∀ (i1 i2 : TrackInfo) (pid : String) (lid1 lid2 : Nat)
      (liked : List String) (s : EtlState),
      i1.trackUri = i2.trackUri →
      inLog s.logTracks i1.trackUri pid = false →
      (liked.contains i1.trackUri && (pid == "0")) = false →
      (processTrack i1 pid lid1 liked s).1 = "saved" ∧
      (processTrack i2 pid lid2 liked (processTrack i1 pid lid1 liked s).2).1 =
        "skipped (saved during the run)" ∧
      (processTrack i2 pid lid2 liked
          (processTrack i1 pid lid1 liked s).2).2.logTracks =
        s.logTracks ++
          [trackLogEntry i1 pid lid1 "saved",
           trackLogEntry i2 pid lid2 "skipped (saved during the run)"] ∧
      (processTrack i2 pid lid2 liked
          (processTrack i1 pid lid1 liked s).2).2.playlistItems =
        (processTrack i1 pid lid1 liked s).2.playlistItems ∧
      (processTrack i2 pid lid2 liked
          (processTrack i1 pid lid1 liked s).2).2.tracksToLike =
        (processTrack i1 pid lid1 liked s).2.tracksToLike) ∧
    (∀ (i1 i2 : AlbumInfo) (pid : String) (lid1 lid2 : Nat)
      (liked : List String) (s : EtlState),
      i1.albumUri = i2.albumUri →
      inLog s.logAlbums i1.albumUri pid = false →
      (liked.contains i1.albumUri && (pid == "0")) = false →
      (processAlbum i1 pid lid1 liked s).1 = "saved" ∧
      (processAlbum i2 pid lid2 liked (processAlbum i1 pid lid1 liked s).2).1 =
        "skipped (saved during the run)" ∧
      (processAlbum i2 pid lid2 liked
          (processAlbum i1 pid lid1 liked s).2).2.logAlbums =
        s.logAlbums ++
          [albumLogEntry i1 pid lid1 "saved",
           albumLogEntry i2 pid lid2 "skipped (saved during the run)"] ∧
      (processAlbum i2 pid lid2 liked
          (processAlbum i1 pid lid1 liked s).2).2.playlistItems =
        (processAlbum i1 pid lid1 liked s).2.playlistItems ∧
      (processAlbum i2 pid lid2 liked
          (processAlbum i1 pid lid1 liked s).2).2.albumsToLike =
        (processAlbum i1 pid lid1 liked s).2.albumsToLike) ∧
    (∀ (i : TrackInfo) (pid : String) (lid : Nat) (liked : List String)
      (s : EtlState),
      inLog s.logTracks i.trackUri pid = false →
      liked.contains i.trackUri = true → pid = "0" →
      (processTrack i pid lid liked s).1 = "skipped (saved before the run)" ∧
      (processTrack i pid lid liked s).2.playlistItems = s.playlistItems ∧
      (processTrack i pid lid liked s).2.tracksToLike = s.tracksToLike ∧
      (processTrack i pid lid liked s).2.logTracks =
        s.logTracks ++ [trackLogEntry i pid lid "skipped (saved before the run)"]) ∧
    (∀ (i : AlbumInfo) (pid : String) (lid : Nat) (liked : List String)
      (s : EtlState),
      inLog s.logAlbums i.albumUri pid = false →
      liked.contains i.albumUri = true → pid = "0" →
      (processAlbum i pid lid liked s).1 = "skipped (saved before the run)" ∧
      (processAlbum i pid lid liked s).2.playlistItems = s.playlistItems ∧
      (processAlbum i pid lid liked s).2.albumsToLike = s.albumsToLike ∧
      (processAlbum i pid lid liked s).2.logAlbums =
        s.logAlbums ++ [albumLogEntry i pid lid "skipped (saved before the run)"]) :=
  ⟨processTrack_fresh_twice, processAlbum_fresh_twice,
   processTrack_liked_before, processAlbum_liked_before⟩

/-- A concrete matched track used by the C4 witness. -/
def tInfoC4 : TrackInfo :=
  { trackUri := "spotify:track:b"
    albumUri := "spotify:album:b"
    trackTitle := "B"
    trackArtists := "Ar"
    durationMs := 1000
    foundOnTry := 0
    differenceMs := 0
    tracksInDesc := 1
    q := "B"
    searchTypeId := 1 }

/-- C4 (witness): `C4_dedup_statuses` at a concrete track, playlist
destination "PL" for the double collection and sentinel "0" with a pre-run
liked snapshot for the skip case. -/
theorem C4_witness :
    (processTrack tInfoC4 "PL" 1 [] initialState).1 = "saved" ∧
    (processTrack tInfoC4 "PL" 2 []
        (processTrack tInfoC4 "PL" 1 [] initialState).2).1 =
      "skipped (saved during the run)" ∧
    (processTrack tInfoC4 "0" 3 ["spotify:track:b"] initialState).1 =
      "skipped (saved before the run)" :=
  ⟨(C4_dedup_statuses.1 tInfoC4 tInfoC4 "PL" 1 2 [] initialState rfl rfl rfl).1,
   (C4_dedup_statuses.1 tInfoC4 tInfoC4 "PL" 1 2 [] initialState rfl rfl rfl).2.1,
   (C4_dedup_statuses.2.2.1 tInfoC4 "0" 3 ["spotify:track:b"] initialState rfl
      (by decide) rfl).1⟩

/-! ## C9

Idempotence of the normalizer.  The key invariant: in the output of
`subAllF`, no surviving opening bracket is followed by its closing bracket
before a newline (`CleanL`), because the scan would have matched and removed
such a span; newlines are never removed, so the obstruction survives into
the output and a second pass finds nothing to remove. -/

/-- Destructing a failed close-search at a cons cell. -/
theorem splitClose_none_cons {cl c : Char} {rest : List Char}
    (h : splitClose cl (c :: rest) = none) :
    c ≠ cl ∧ (c = '\n' ∨ splitClose cl rest = none) := by
  simp only [splitClose] at h
  split_ifs at h with h1 h2
  · exact ⟨h1, Or.inl h2⟩
  · exact ⟨h1, Or.inr h⟩

/-- A successful close-search strictly shortens the list. -/
theorem splitClose_length {cl : Char} :
    ∀ {l rem : List Char}, splitClose cl l = some rem → rem.length < l.length := by
  intro l
  induction l with
  | nil => intro rem h; exact absurd h (by simp [splitClose])
  | cons c rest ih =>
    intro rem h
    simp only [splitClose] at h
    split_ifs at h with h1 h2
    · cases h
      exact Nat.lt_succ_self _
    · exact Nat.lt_trans (ih h) (Nat.lt_succ_self _)

/-- No opening bracket is a newline. -/
theorem isOpen_ne_newline {c : Char} (h : isOpen c = true) : c ≠ '\n' := by
  intro hc
  subst hc
  exact absurd h (by decide)

/-- No closing bracket is a newline. -/
theorem closeOf_ne_newline (c : Char) : closeOf c ≠ '\n' := by
  unfold closeOf
  split_ifs <;> decide

/-- If `cl` does not occur before the first newline of `l`, it still does
not occur before the first newline of the suffix left after removing a
matched span (the dropped prefix contains no newline). -/
theorem splitClose_none_after_some {cl cl2 : Char} (hcl2 : cl2 ≠ '\n') :
    ∀ (l rem : List Char), splitClose cl l = none →
      splitClose cl2 l = some rem → splitClose cl rem = none := by
  intro l
  induction l with
  | nil => intro rem _ h2; exact absurd h2 (by simp [splitClose])
  | cons c rest ih =>
    intro rem h1 h2
    obtain ⟨hne, hrest⟩ := splitClose_none_cons h1
    simp only [splitClose] at h2
    split_ifs at h2 with hc2 hnl
    · cases h2
      rcases hrest with hnl | hnone
      · exact absurd (hc2.symm.trans hnl) hcl2
      · exact hnone
    · rcases hrest with hnl2 | hnone
      · exact absurd hnl2 hnl
      · exact ih rem hnone h2

/-- The removal pass creates no new close-before-newline occurrence. -/
theorem splitClose_subAllF_none {cl : Char} :
    ∀ (f : Nat) (l : List Char), splitClose cl l = none →
      splitClose cl (subAllF f l) = none := by
  intro f
  induction f with
  | zero => intro l h; exact h
  | succ f ih =>
    intro l h
    cases l with
    | nil => exact h
    | cons c rest =>
      obtain ⟨hne, hrest⟩ := splitClose_none_cons h
      simp only [subAllF]
      by_cases hop : isOpen c = true
      · rw [if_pos hop]
        cases hsp : splitClose (closeOf c) rest with
        | some rem =>
          have hnone : splitClose cl rest = none := by
            rcases hrest with hnl | hnone
            · exact absurd hnl (isOpen_ne_newline hop)
            · exact hnone
          exact ih rem (splitClose_none_after_some (closeOf_ne_newline c)
            rest rem hnone hsp)
        | none =>
          show splitClose cl (c :: subAllF f rest) = none
          simp only [splitClose]
          rw [if_neg hne]
          by_cases hnl : c = '\n'
          · rw [if_pos hnl]
          · rw [if_neg hnl]
            rcases hrest with hnl2 | hnone
            · exact absurd hnl2 hnl
            · exact ih rest hnone
      · rw [if_neg hop]
        show splitClose cl (c :: subAllF f rest) = none
        simp only [splitClose]
        rw [if_neg hne]
        by_cases hnl : c = '\n'
        · rw [if_pos hnl]
        · rw [if_neg hnl]
          rcases hrest with hnl2 | hnone
          · exact absurd hnl2 hnl
          · exact ih rest hnone

/-- A character list is clean when no opening bracket in it is followed by
its closing bracket before a newline — the regex finds nothing in it. -/
def CleanL : List Char → Prop
  | [] => True
  | c :: rest => (isOpen c = true → splitClose (closeOf c) rest = none) ∧ CleanL rest

/-- The output of the removal pass is clean. -/
theorem clean_subAllF : ∀ (f : Nat) (l : List Char), l.length ≤ f →
    CleanL (subAllF f l) := by
  intro f
  induction f with
  | zero =>
    intro l hl
    have : l = [] := List.length_eq_zero.mp (Nat.le_zero.mp hl)
    subst this
    trivial
  | succ f ih =>
    intro l hl
    cases l with
    | nil => trivial
    | cons c rest =>
      have hrest : rest.length ≤ f := Nat.le_of_succ_le_succ hl
      simp only [subAllF]
      by_cases hop : isOpen c = true
      · rw [if_pos hop]
        cases hsp : splitClose (closeOf c) rest with
        | some rem =>
          exact ih rem (Nat.le_of_lt (Nat.lt_of_lt_of_le
            (splitClose_length hsp) hrest))
        | none =>
          show CleanL (c :: subAllF f rest)
          exact ⟨fun _ => splitClose_subAllF_none f rest hsp, ih rest hrest⟩
      · rw [if_neg hop]
        show CleanL (c :: subAllF f rest)
        exact ⟨fun hc => absurd hc hop, ih rest hrest⟩

/-- The removal pass fixes every clean list. -/
theorem subAllF_of_clean : ∀ (f : Nat) (l : List Char), CleanL l →
    subAllF f l = l := by
  intro f
  induction f with
  | zero => intro l _; rfl
  | succ f ih =>
    intro l hc
    cases l with
    | nil => rfl
    | cons c rest =>
      simp only [subAllF]
      by_cases hop : isOpen c = true
      · rw [if_pos hop, hc.1 hop]
        show c :: subAllF f rest = c :: rest
        rw [ih rest hc.2]
      · rw [if_neg hop, ih rest hc.2]

/-- C9 (confirmed): the title normalizer removes every parenthesized,
square-bracketed, or full-width-bracketed span including its delimiters —
concretely `fix_youtube_title "Album Name (2021) [Full Album]"` equals
`"Album Name  "` with the surrounding spacing preserved — and it is
idempotent: normalizing twice equals normalizing once, for every string. -/
theorem C9_normalizer :
    fix_youtube_title "Album Name (2021) [Full Album]" = "Album Name  " ∧
    ∀ x : String, fix_youtube_title (fix_youtube_title x) = fix_youtube_title x := by
  refine ⟨rfl, ?_⟩
  intro x
  simp only [fix_youtube_title]
  exact congrArg String.mk
    (subAllF_of_clean _ _ (clean_subAllF x.data.length x.data (Nat.le_refl _)))
